import Mathlib

/-!
Shallow embedding of `yamllint/rules/document_start.py` (the `document-start`
rule of yamllint) and proofs about its `check` function.

The Python source dispatches on token classes produced by the `yaml`
tokenizer (`StreamStartToken`, `StreamEndToken`, `DocumentStartToken`,
`DocumentEndToken`, `DirectiveToken`, and arbitrary others), reads each
token's `start_mark.line` / `start_mark.column` (0-indexed), and yields
`LintProblem` diagnostics.  The generator is modelled as a function
returning the list of yielded diagnostics, in yield order.
-/

namespace DocumentStart

/-- Token kinds relevant to the rule; every other token class of the yaml
tokenizer is collapsed into `other`, since the rule only tests membership
in the five named classes via `isinstance`. -/
inductive TokenKind where
  | streamStart
  | streamEnd
  | documentStart
  | documentEnd
  | directive
  | other
  deriving DecidableEq, Repr

/-- `start_mark` of a yaml token: 0-indexed line and column. -/
structure Mark where
  line : Nat
  column : Nat
  deriving DecidableEq, Repr

/-- A yaml token as the rule sees it: its class (kind) and its start mark. -/
structure Token where
  kind : TokenKind
  start_mark : Mark
  deriving DecidableEq, Repr

/-- Modelled from the spec: `LintProblem` lives in `yamllint/linter.py`,
which is not among the shown sources.  The spec describes the diagnostic as
`{line: positive integer, column: positive integer, message: text, rule_id}`;
the rule id is attached by the dispatcher, so the rule itself constructs a
diagnostic from line, column and message, which is what is modelled here. -/
structure LintProblem where
  line : Nat
  column : Nat
  message : String
  deriving DecidableEq, Repr

/-- The rule's configuration (`CONF` schema of the source):
`present : bool`, `max-empty-lines-after : int`, `min-empty-lines-after : int`.
The two line counts are Python ints, so they are modelled as `Int`
(`max-empty-lines-after` defaults to `-1`). -/
structure Conf where
  present : Bool
  max_empty_lines_after : Int
  min_empty_lines_after : Int
  deriving DecidableEq, Repr

/-- The `DEFAULT` configuration of the source:
`{'present': True, 'max-empty-lines-after': -1, 'min-empty-lines-after': 0}`. -/
def DEFAULT : Conf :=
  { present := true, max_empty_lines_after := -1, min_empty_lines_after := 0 }

/-- `isinstance(t, (k1, ..., kn))` for an optional token: true iff the token
is present and its kind is in the list (`isinstance(None, _)` is false). -/
def optIsOneOf (t : Option Token) (ks : List TokenKind) : Bool :=
  match t with
  | some tok => ks.contains tok.kind
  | none => false

/-- The `empty_lines` computation of the source:
`token.start_mark.line - prev.start_mark.line - 1`, over Python ints. -/
def empty_lines (prev token : Token) : Int :=
  (token.start_mark.line : Int) - (prev.start_mark.line : Int) - 1

/-- `check(conf, token, prev, next, nextnext, context)` of
`yamllint/rules/document_start.py`, with the generator's yields collected
into a list in order.  `context` is the per-file dict the dispatcher passes
to every token rule; this rule never touches it, so its type is a parameter. -/
def check {C : Type} (conf : Conf) (token : Token) (prev : Option Token)
    (next : Option Token) (nextnext : Option Token) (context : C) :
    List LintProblem :=
  if conf.present then
    (if optIsOneOf prev
          [TokenKind.streamStart, TokenKind.documentEnd, TokenKind.directive]
        && !([TokenKind.documentStart, TokenKind.directive,
              TokenKind.streamEnd].contains token.kind) then
      [{ line := token.start_mark.line + 1, column := 1,
         message := "missing document start \"---\"" }]
    else []) ++
    (match prev with
     | some p =>
       if p.kind = TokenKind.documentStart then
         (if conf.max_empty_lines_after ≥ 0
             ∧ empty_lines p token > conf.max_empty_lines_after then
           [{ line := token.start_mark.line + 1,
              column := token.start_mark.column + 1,
              message := "too many empty lines after document start" }]
         else []) ++
         (if conf.min_empty_lines_after > 0
             ∧ empty_lines p token < conf.min_empty_lines_after then
           [{ line := token.start_mark.line + 1,
              column := token.start_mark.column + 1,
              message := "too few empty lines after document start" }]
         else [])
       else []
     | none => [])
  else
    if token.kind = TokenKind.documentStart then
      [{ line := token.start_mark.line + 1,
         column := token.start_mark.column + 1,
         message := "found forbidden document start \"---\"" }]
    else []

/-- The missing-marker diagnostic the rule emits for `token`. -/
def missingDiag (token : Token) : LintProblem :=
  { line := token.start_mark.line + 1, column := 1,
    message := "missing document start \"---\"" }

/-- The too-many-empty-lines diagnostic the rule emits for `token`. -/
def tooManyDiag (token : Token) : LintProblem :=
  { line := token.start_mark.line + 1, column := token.start_mark.column + 1,
    message := "too many empty lines after document start" }

/-- The too-few-empty-lines diagnostic the rule emits for `token`. -/
def tooFewDiag (token : Token) : LintProblem :=
  { line := token.start_mark.line + 1, column := token.start_mark.column + 1,
    message := "too few empty lines after document start" }

/-- The forbidden-marker diagnostic the rule emits for `token`. -/
def forbiddenDiag (token : Token) : LintProblem :=
  { line := token.start_mark.line + 1, column := token.start_mark.column + 1,
    message := "found forbidden document start \"---\"" }

/-- Shared helper: membership of the missing-marker diagnostic in the
output, characterised by the branch condition of the source. -/
lemma mem_check_missing {C : Type} (conf : Conf) (token : Token)
    (prev next nextnext : Option Token) (context : C)
    (hp : conf.present = true) :
    missingDiag token ∈ check conf token prev next nextnext context ↔
      (optIsOneOf prev [TokenKind.streamStart, TokenKind.documentEnd,
          TokenKind.directive] = true ∧
        token.kind ≠ TokenKind.documentStart ∧
        token.kind ≠ TokenKind.directive ∧
        token.kind ≠ TokenKind.streamEnd) := by
  cases prev with
  | none => simp [check, hp, optIsOneOf, missingDiag]
  | some p =>
    rcases p with ⟨pk, pm⟩
    rcases token with ⟨tk, tm⟩
    cases pk <;> cases tk <;>
      simp [check, hp, optIsOneOf, missingDiag, tooManyDiag, tooFewDiag]

/-- Shared helper: with a `DocumentStart` predecessor in present mode, the
too-many diagnostic is in the output iff the upper-bound comparison of the
source fires. -/
lemma mem_check_too_many {C : Type} (conf : Conf) (token p : Token)
    (next nextnext : Option Token) (context : C)
    (hp : conf.present = true) (hk : p.kind = TokenKind.documentStart) :
    tooManyDiag token ∈ check conf token (some p) next nextnext context ↔
      conf.max_empty_lines_after ≥ 0 ∧
        empty_lines p token > conf.max_empty_lines_after := by
  have hno : optIsOneOf (some p) [TokenKind.streamStart, TokenKind.documentEnd,
      TokenKind.directive] = false := by
    simp [optIsOneOf, hk]
  simp only [check, hp, if_true, hno, Bool.false_and, if_false,
    List.nil_append, hk, List.mem_append]
  constructor
  · intro h
    rcases h with h | h <;> split_ifs at h <;>
      simp_all [tooManyDiag, tooFewDiag]
  · intro h
    simp [tooManyDiag, tooFewDiag, if_pos h]

/-- Shared helper: with a `DocumentStart` predecessor in present mode, the
too-few diagnostic is in the output iff the lower-bound comparison of the
source fires. -/
lemma mem_check_too_few {C : Type} (conf : Conf) (token p : Token)
    (next nextnext : Option Token) (context : C)
    (hp : conf.present = true) (hk : p.kind = TokenKind.documentStart) :
    tooFewDiag token ∈ check conf token (some p) next nextnext context ↔
      conf.min_empty_lines_after > 0 ∧
        empty_lines p token < conf.min_empty_lines_after := by
  have hno : optIsOneOf (some p) [TokenKind.streamStart, TokenKind.documentEnd,
      TokenKind.directive] = false := by
    simp [optIsOneOf, hk]
  simp only [check, hp, if_true, hno, Bool.false_and, if_false,
    List.nil_append, hk, List.mem_append]
  constructor
  · intro h
    rcases h with h | h <;> split_ifs at h <;>
      simp_all [tooManyDiag, tooFewDiag]
  · intro h
    simp [tooManyDiag, tooFewDiag, if_pos h]

end DocumentStart

namespace DocumentStart

/-- C1: With `present = true`, the missing-marker diagnostic — at line
`current.line + 1`, column 1, message `missing document start "---"` — is
emitted exactly when the previous token exists with kind `StreamStart`,
`DocumentEnd` or `Directive` while the current token's kind is none of
`DocumentStart`, `Directive`, `StreamEnd`; in every other case (previous
absent included) no missing-marker diagnostic appears in the output. -/
theorem missing_marker_iff {C : Type} (conf : Conf) (token : Token)
    (prev next nextnext : Option Token) (context : C)
    (hp : conf.present = true) :
    missingDiag token ∈ check conf token prev next nextnext context ↔
      (optIsOneOf prev [TokenKind.streamStart, TokenKind.documentEnd,
          TokenKind.directive] = true ∧
        token.kind ≠ TokenKind.documentStart ∧
        token.kind ≠ TokenKind.directive ∧
        token.kind ≠ TokenKind.streamEnd) :=
  mem_check_missing conf token prev next nextnext context hp

/-- Closed instance of the missing-marker theorem: under the default
configuration, a plain token at line 3 preceded by a `StreamStart` receives
the missing-marker diagnostic. -/
theorem missing_marker_iff_witness :
    missingDiag { kind := TokenKind.other, start_mark := { line := 3, column := 2 } }
        ∈ check DEFAULT
          { kind := TokenKind.other, start_mark := { line := 3, column := 2 } }
          (some { kind := TokenKind.streamStart,
                  start_mark := { line := 0, column := 0 } })
          none none () :=
  (missing_marker_iff DEFAULT _ _ none none () rfl).mpr
    ⟨by decide, by decide, by decide, by decide⟩

/-- C2: With `present = true` and a `DocumentStart` as previous token, the
too-many diagnostic (at `(line + 1, column + 1)`) is emitted iff
`max-empty-lines-after ≥ 0` and `empty_lines` exceeds it, and the too-few
diagnostic (same position) is emitted iff `min-empty-lines-after > 0` and
`empty_lines` falls short of it, with
`empty_lines = current.line - previous.line - 1`. -/
theorem empty_lines_diags_iff {C : Type} (conf : Conf) (token p : Token)
    (next nextnext : Option Token) (context : C)
    (hp : conf.present = true) (hk : p.kind = TokenKind.documentStart) :
    (tooManyDiag token ∈ check conf token (some p) next nextnext context ↔
      conf.max_empty_lines_after ≥ 0 ∧
        empty_lines p token > conf.max_empty_lines_after) ∧
    (tooFewDiag token ∈ check conf token (some p) next nextnext context ↔
      conf.min_empty_lines_after > 0 ∧
        empty_lines p token < conf.min_empty_lines_after) :=
  ⟨mem_check_too_many conf token p next nextnext context hp hk,
   mem_check_too_few conf token p next nextnext context hp hk⟩

/-- Closed instance of the empty-lines theorem: with `max = 1`, `min = 0`,
a marker on line 0 and the next token on line 3 (two blank lines between),
the two membership equivalences hold at these concrete values. -/
theorem empty_lines_diags_iff_witness :
    (tooManyDiag { kind := TokenKind.other, start_mark := { line := 3, column := 0 } }
        ∈ check { present := true, max_empty_lines_after := 1,
                  min_empty_lines_after := 0 }
          { kind := TokenKind.other, start_mark := { line := 3, column := 0 } }
          (some { kind := TokenKind.documentStart,
                  start_mark := { line := 0, column := 0 } })
          none none () ↔
      (1 : Int) ≥ 0 ∧
        empty_lines { kind := TokenKind.documentStart,
                      start_mark := { line := 0, column := 0 } }
          { kind := TokenKind.other, start_mark := { line := 3, column := 0 } }
          > (1 : Int)) ∧
    (tooFewDiag { kind := TokenKind.other, start_mark := { line := 3, column := 0 } }
        ∈ check { present := true, max_empty_lines_after := 1,
                  min_empty_lines_after := 0 }
          { kind := TokenKind.other, start_mark := { line := 3, column := 0 } }
          (some { kind := TokenKind.documentStart,
                  start_mark := { line := 0, column := 0 } })
          none none () ↔
      (0 : Int) > 0 ∧
        empty_lines { kind := TokenKind.documentStart,
                      start_mark := { line := 0, column := 0 } }
          { kind := TokenKind.other, start_mark := { line := 3, column := 0 } }
          < (0 : Int)) :=
  empty_lines_diags_iff _ _ _ none none () rfl rfl

/-- C3: With `present = false`, the checker emits exactly the single
forbidden-marker diagnostic at `(line + 1, column + 1)` when the current
token is a `DocumentStart`, and nothing otherwise; no other check runs,
whatever the empty-line options and the previous token are. -/
theorem check_forbidden_mode {C : Type} (conf : Conf) (token : Token)
    (prev next nextnext : Option Token) (context : C)
    (hp : conf.present = false) :
    check conf token prev next nextnext context =
      if token.kind = TokenKind.documentStart then [forbiddenDiag token]
      else [] := by
  simp [check, hp, forbiddenDiag]

/-- Closed instance of the forbidden-mode theorem: the default options with
`present` flipped to `false`, a `DocumentStart` token at line 2, column 0,
and a `DocumentEnd` predecessor yield exactly the forbidden diagnostic. -/
theorem check_forbidden_mode_witness :
    check { present := false, max_empty_lines_after := -1,
            min_empty_lines_after := 0 }
        { kind := TokenKind.documentStart, start_mark := { line := 2, column := 0 } }
        (some { kind := TokenKind.documentEnd,
                start_mark := { line := 2, column := 0 } })
        none none () =
      if ({ kind := TokenKind.documentStart,
            start_mark := { line := 2, column := 0 } } : Token).kind
          = TokenKind.documentStart then
        [forbiddenDiag { kind := TokenKind.documentStart,
                         start_mark := { line := 2, column := 0 } }]
      else [] :=
  check_forbidden_mode _ _ _ _ _ _ rfl

/-- C4: With `present = true`, a `DocumentStart` previous token, and bounds
such that `max-empty-lines-after ≥ 0` while
`max-empty-lines-after < empty_lines < min-empty-lines-after` (which forces
`min > max`), both comparisons fire independently: the too-many and the
too-few diagnostics are both yielded in the same invocation. -/
theorem both_empty_line_diags {C : Type} (conf : Conf) (token p : Token)
    (next nextnext : Option Token) (context : C)
    (hp : conf.present = true) (hk : p.kind = TokenKind.documentStart)
    (hmax : conf.max_empty_lines_after ≥ 0)
    (hgt : empty_lines p token > conf.max_empty_lines_after)
    (hlt : empty_lines p token < conf.min_empty_lines_after) :
    tooManyDiag token ∈ check conf token (some p) next nextnext context ∧
      tooFewDiag token ∈ check conf token (some p) next nextnext context := by
  have hmin : conf.min_empty_lines_after > 0 := by omega
  exact ⟨(mem_check_too_many conf token p next nextnext context hp hk).mpr
      ⟨hmax, hgt⟩,
    (mem_check_too_few conf token p next nextnext context hp hk).mpr
      ⟨hmin, hlt⟩⟩

/-- Closed instance of the dual-diagnostic theorem: `max = 0`, `min = 2`,
marker on line 0, next token on line 2 (`empty_lines = 1`) — both
diagnostics are emitted for the same gap. -/
theorem both_empty_line_diags_witness :
    tooManyDiag { kind := TokenKind.other, start_mark := { line := 2, column := 0 } }
        ∈ check { present := true, max_empty_lines_after := 0,
                  min_empty_lines_after := 2 }
          { kind := TokenKind.other, start_mark := { line := 2, column := 0 } }
          (some { kind := TokenKind.documentStart,
                  start_mark := { line := 0, column := 0 } })
          none none () ∧
      tooFewDiag { kind := TokenKind.other, start_mark := { line := 2, column := 0 } }
        ∈ check { present := true, max_empty_lines_after := 0,
                  min_empty_lines_after := 2 }
          { kind := TokenKind.other, start_mark := { line := 2, column := 0 } }
          (some { kind := TokenKind.documentStart,
                  start_mark := { line := 0, column := 0 } })
          none none () :=
  both_empty_line_diags _ _ _ none none () rfl rfl (by decide)
    (by decide) (by decide)

/-- C5: The checker's output depends only on the configuration, the previous
token, and the current token: two invocations agreeing on those three
arguments — whatever `next`, `nextnext` and `context` are, even of different
types — produce identical diagnostic lists.  Determinism is immediate since
`check` is a function. -/
theorem check_depends_only_on_conf_prev_current {C C' : Type}
    (conf : Conf) (token : Token) (prev : Option Token)
    (next nextnext : Option Token) (context : C)
    (next' nextnext' : Option Token) (context' : C') :
    check conf token prev next nextnext context =
      check conf token prev next' nextnext' context' := rfl

end DocumentStart

namespace DocumentStart

/-- Shared helper: every diagnostic in the output is one of the four
diagnostics the source can construct, with the side conditions the
corresponding branch guarantees. -/
lemma mem_check_elim {C : Type} {conf : Conf} {token : Token}
    {prev next nextnext : Option Token} {context : C} {d : LintProblem}
    (hd : d ∈ check conf token prev next nextnext context) :
    (d = missingDiag token ∧ token.kind ≠ TokenKind.documentStart ∧
      token.kind ≠ TokenKind.directive ∧ token.kind ≠ TokenKind.streamEnd) ∨
    (d = tooManyDiag token ∧ 0 ≤ conf.max_empty_lines_after) ∨
    d = tooFewDiag token ∨
    (d = forbiddenDiag token ∧ token.kind = TokenKind.documentStart) := by
  rcases token with ⟨tk, tm⟩
  rcases prev with _ | ⟨pk, pm⟩
  · by_cases hp : conf.present = true <;> cases tk <;>
      simp [check, hp, optIsOneOf, missingDiag, tooManyDiag, tooFewDiag,
        forbiddenDiag] at hd ⊢ <;>
      simp_all
  · by_cases hp : conf.present = true <;> cases tk <;> cases pk <;>
      simp [check, hp, optIsOneOf, missingDiag, tooManyDiag, tooFewDiag,
        forbiddenDiag] at hd ⊢ <;>
      (try split_ifs at hd) <;> (try simp_all) <;> tauto

/-- C6: Every invocation yields at most two diagnostics, and the only way to
get two is the pair (too-many, too-few) from the empty-line branch — the
missing-marker branch and the empty-line branch can never fire together,
since the previous token's kind cannot be both `DocumentStart` and one of
`StreamStart`/`DocumentEnd`/`Directive`. -/
theorem check_yields_at_most_two {C : Type} (conf : Conf) (token : Token)
    (prev next nextnext : Option Token) (context : C) :
    (check conf token prev next nextnext context).length ≤ 2 ∧
      ((check conf token prev next nextnext context).length ≤ 1 ∨
        check conf token prev next nextnext context =
          [tooManyDiag token, tooFewDiag token]) := by
  cases prev with
  | none =>
    by_cases hp : conf.present <;>
      simp [check, hp] <;> split_ifs <;> simp
  | some p =>
    by_cases hp : conf.present <;>
      simp [check, hp, tooManyDiag, tooFewDiag] <;>
      split_ifs <;> simp_all [optIsOneOf]

/-- C7: A negative `max-empty-lines-after` disables the upper bound: no
diagnostic whose message is `too many empty lines after document start` is
ever emitted, whatever the tokens and the other options. -/
theorem neg_max_disables_too_many {C : Type} (conf : Conf) (token : Token)
    (prev next nextnext : Option Token) (context : C)
    (h : conf.max_empty_lines_after < 0) :
    (check conf token prev next nextnext context).all
      (fun d => d.message != "too many empty lines after document start")
      = true := by
  rw [List.all_eq_true]
  intro d hd
  rcases mem_check_elim hd with ⟨rfl, -⟩ | ⟨rfl, hmax⟩ | rfl | ⟨rfl, -⟩
  · simp [missingDiag]
  · omega
  · simp [tooFewDiag]
  · simp [forbiddenDiag]

/-- Closed instance of the upper-bound-disabled theorem: under the default
configuration (`max = -1`) and a marker predecessor two lines above the
current token (one blank line between), no too-many message is emitted. -/
theorem neg_max_disables_too_many_witness :
    (check DEFAULT
        { kind := TokenKind.other, start_mark := { line := 2, column := 0 } }
        (some { kind := TokenKind.documentStart,
                start_mark := { line := 0, column := 0 } })
        none none ()).all
      (fun d => d.message != "too many empty lines after document start")
      = true :=
  neg_max_disables_too_many DEFAULT _ _ none none () (by decide)

end DocumentStart

namespace DocumentStart

/-- C8: A `Directive` current token is never flagged: in either mode no
missing-marker or forbidden-marker diagnostic appears in the output for it;
yet a `Directive` as the previous token still triggers the marker-absence
check on a current token that is none of `DocumentStart`, `Directive`,
`StreamEnd` when markers are required. -/
theorem directive_not_flagged {C : Type} (conf : Conf) (context : C) :
    (∀ (token : Token) (prev next nextnext : Option Token),
      token.kind = TokenKind.directive →
      (check conf token prev next nextnext context).all
        (fun d => d.message != "missing document start \"---\"" &&
          d.message != "found forbidden document start \"---\"") = true) ∧
    (∀ (token p : Token) (next nextnext : Option Token),
      conf.present = true → p.kind = TokenKind.directive →
      token.kind ≠ TokenKind.documentStart →
      token.kind ≠ TokenKind.directive → token.kind ≠ TokenKind.streamEnd →
      missingDiag token ∈ check conf token (some p) next nextnext context) := by
  constructor
  · intro token prev next nextnext hk
    rw [List.all_eq_true]
    intro d hd
    rcases mem_check_elim hd with ⟨rfl, -, hdir, -⟩ | ⟨rfl, -⟩ | rfl | ⟨rfl, hds⟩
    · exact absurd hk hdir
    · simp [tooManyDiag]
    · simp [tooFewDiag]
    · rw [hk] at hds; cases hds
  · intro token p next nextnext hp hpk h1 h2 h3
    exact (mem_check_missing conf token (some p) next nextnext context hp).mpr
      ⟨by simp [optIsOneOf, hpk], h1, h2, h3⟩

/-- Closed instance of the directive theorem: a `Directive` current token
preceded by a `StreamStart` is not flagged under the default configuration,
and a plain token preceded by a `Directive` does get the missing-marker
diagnostic. -/
theorem directive_not_flagged_witness :
    (check DEFAULT
        { kind := TokenKind.directive, start_mark := { line := 0, column := 0 } }
        (some { kind := TokenKind.streamStart,
                start_mark := { line := 0, column := 0 } })
        none none ()).all
      (fun d => d.message != "missing document start \"---\"" &&
        d.message != "found forbidden document start \"---\"") = true ∧
    missingDiag { kind := TokenKind.other, start_mark := { line := 1, column := 0 } }
      ∈ check DEFAULT
        { kind := TokenKind.other, start_mark := { line := 1, column := 0 } }
        (some { kind := TokenKind.directive,
                start_mark := { line := 0, column := 0 } })
        none none () :=
  ⟨(directive_not_flagged DEFAULT ()).1 _ _ none none rfl,
   (directive_not_flagged DEFAULT ()).2 _ _ none none rfl rfl
     (by decide) (by decide) (by decide)⟩

/-- C9: Every emitted diagnostic carries 1-indexed coordinates: its line is
the current token's 0-indexed line plus 1 (hence nonzero), and its column is
the constant 1 for the missing-marker message and the token's 0-indexed
column plus 1 otherwise (hence nonzero in every case). -/
theorem diag_positions {C : Type} (conf : Conf) (token : Token)
    (prev next nextnext : Option Token) (context : C) :
    (check conf token prev next nextnext context).all
      (fun d => d.line == token.start_mark.line + 1 && d.line != 0 &&
        (if d.message == "missing document start \"---\"" then d.column == 1
         else d.column == token.start_mark.column + 1) && d.column != 0)
      = true := by
  rw [List.all_eq_true]
  intro d hd
  rcases mem_check_elim hd with ⟨rfl, -⟩ | ⟨rfl, -⟩ | rfl | ⟨rfl, -⟩ <;>
    simp [missingDiag, tooManyDiag, tooFewDiag, forbiddenDiag]

/-- C10: When the current token starts on the marker's own line,
`empty_lines` evaluates to `-1` (no clamping at zero); the too-many
diagnostic can then never fire, while the too-few diagnostic fires whenever
`min-empty-lines-after ≥ 1`. -/
theorem same_line_gap {C : Type} (conf : Conf) (token p : Token)
    (next nextnext : Option Token) (context : C)
    (hp : conf.present = true) (hk : p.kind = TokenKind.documentStart)
    (hline : token.start_mark.line = p.start_mark.line) :
    empty_lines p token = -1 ∧
      tooManyDiag token ∉ check conf token (some p) next nextnext context ∧
      (1 ≤ conf.min_empty_lines_after →
        tooFewDiag token ∈ check conf token (some p) next nextnext context) := by
  have hel : empty_lines p token = -1 := by
    simp [empty_lines, hline]
  refine ⟨hel, ?_, ?_⟩
  · intro hmem
    have hc := (mem_check_too_many conf token p next nextnext context hp hk).mp hmem
    omega
  · intro hmin
    exact (mem_check_too_few conf token p next nextnext context hp hk).mpr
      ⟨by omega, by omega⟩

/-- Closed instance of the same-line theorem: marker and current token both
on line 0, `min = 1` — `empty_lines = -1`, no too-many diagnostic, and the
too-few diagnostic is emitted. -/
theorem same_line_gap_witness :
    empty_lines { kind := TokenKind.documentStart,
                  start_mark := { line := 0, column := 0 } }
        { kind := TokenKind.other, start_mark := { line := 0, column := 4 } }
      = -1 ∧
    tooManyDiag { kind := TokenKind.other, start_mark := { line := 0, column := 4 } }
      ∉ check { present := true, max_empty_lines_after := -1,
                min_empty_lines_after := 1 }
        { kind := TokenKind.other, start_mark := { line := 0, column := 4 } }
        (some { kind := TokenKind.documentStart,
                start_mark := { line := 0, column := 0 } })
        none none () ∧
    tooFewDiag { kind := TokenKind.other, start_mark := { line := 0, column := 4 } }
      ∈ check { present := true, max_empty_lines_after := -1,
                min_empty_lines_after := 1 }
        { kind := TokenKind.other, start_mark := { line := 0, column := 4 } }
        (some { kind := TokenKind.documentStart,
                start_mark := { line := 0, column := 0 } })
        none none () :=
  by
  have h := same_line_gap
    { present := true, max_empty_lines_after := -1, min_empty_lines_after := 1 }
    { kind := TokenKind.other, start_mark := { line := 0, column := 4 } }
    { kind := TokenKind.documentStart, start_mark := { line := 0, column := 0 } }
    none none () rfl rfl rfl
  exact ⟨h.1, h.2.1, h.2.2 (by decide)⟩

end DocumentStart
